import Mathlib

/-!
Verification of the multi-backend MCP client (`mcp_client.py`).

The Python source is shallowly embedded: Python strings are Lean `String`s
(character lists underneath), dictionaries keeping insertion order are
association lists, the fallible external collaborators (JSON decoding, the
backend tool sessions, the completion provider) are explicit function
parameters returning `Except`/plain values, and the scoped resources held by
the `AsyncExitStack` scoped resources of each connection are tracked in a ledger of live
resource identifiers.
-/

namespace Pantheon

/-- The tool-name separator `MCPManager.TOOL_NAME_SEPARATOR = "__"`
(mcp_client.py line 35). -/
def TOOL_NAME_SEPARATOR : String := "__"

/-- Character list of the separator. -/
def sepChars : List Char := ['_', '_']

/-- Python `s.split(sep, 1)` followed by a two-element unpacking, on character
lists: splits at the first occurrence of `sep`; `none` models the `ValueError`
raised by the unpacking when `sep` does not occur in `s`. -/
def splitOnceData (sep : List Char) : List Char → Option (List Char × List Char)
  | [] => none
  | c :: rest =>
    if sep.isPrefixOf (c :: rest) then some ([], (c :: rest).drop sep.length)
    else
      match splitOnceData sep rest with
      | some p => some (c :: p.1, p.2)
      | none => none

/-- Python `s.split(sep, 1)` with two-element unpacking, on strings. -/
def pySplitOnce (s sep : String) : Option (String × String) :=
  match splitOnceData sep.data s.data with
  | some p => some (⟨p.1⟩, ⟨p.2⟩)
  | none => none

/-- The qualified tool name `f-string server_id + TOOL_NAME_SEPARATOR + tool.name`
built in `MCPManager._get_all_tools_for_llm` (mcp_client.py line 122). -/
def buildName (server_id tool_name : String) : String :=
  server_id ++ TOOL_NAME_SEPARATOR ++ tool_name

/-- The resolution `unique_function_name.split(self.TOOL_NAME_SEPARATOR, 1)`
performed in `MCPManager.process_query` (mcp_client.py line 173). -/
def resolveName (unique_function_name : String) : Option (String × String) :=
  pySplitOnce unique_function_name TOOL_NAME_SEPARATOR

/-- Whether the separator occurs in `s` as a substring. -/
def containsSep (s : String) : Bool :=
  (splitOnceData sepChars s.data).isSome

/-- Whether `s` ends with the underscore character. -/
def endsWithUnderscore (s : String) : Bool :=
  s.data.getLast? == some '_'

/-- One tool-call request returned by the completion provider
(`tool_call.id`, `tool_call.function.name`, `tool_call.function.arguments`). -/
structure ToolCall where
  id : String
  function_name : String
  function_arguments : String
deriving DecidableEq

/-- One entry of `MCPManager.messages`. The assistant response object is
appended raw (mcp_client.py line 161), so it keeps its tool-call list. -/
structure Message where
  role : String
  content : Option String := none
  tool_call_id : Option String := none
  name : Option String := none
  tool_calls : List ToolCall := []
deriving DecidableEq

/-- One tool as fetched from a backend by `session.list_tools()`. -/
structure Tool where
  name : String
  description : String
  inputSchema : String
deriving DecidableEq

/-- The `ServerConnection` record (mcp_client.py lines 18-22). The opaque
`session` and `exit_stack` are modelled by the list of scoped resource
identifiers held by the `AsyncExitStack` of the connection. -/
structure ServerConnection where
  tools : List Tool
  resources : List Nat
deriving DecidableEq

/-- One entry of the tool catalog sent to the completion provider. The
wrapping dictionary `type: function, function: ...` of
`_get_all_tools_for_llm` is flattened to its three payload fields. -/
structure ToolDef where
  name : String
  description : String
  parameters : String
deriving DecidableEq

/-- The fixed default system-message content of `_initialize_history`
(mcp_client.py lines 47 and 53). -/
def DEFAULT_SYSTEM_CONTENT : String := "你是一个有用的助手。你可以使用提供的工具来回答问题。"

/-- The default system message used when the role profile is absent. -/
def defaultSystemMessage : Message :=
  { role := "system", content := some DEFAULT_SYSTEM_CONTENT }

/-- One role profile value: a JSON object whose `role` and `content` keys may
each be absent (`role_info.get("role", "system")` and
`role_info.get("content", ...)` supply the defaults). -/
structure RoleInfo where
  role_field : Option String := none
  content_field : Option String := none
deriving DecidableEq

/-- Python truthiness of an optional string: `None` and the empty string are
falsy. -/
def truthyOpt : Option String → Bool
  | none => false
  | some s => !(s == "")

/-- Embeds `MCPManager._initialize_history` (mcp_client.py lines 40-57).
The role-profile table `self.role_config` is an association list; the guard
`if self.role_config and role_name in self.role_config` requires the table to
be nonempty and the key present. -/
def initialize_history (role_config : List (String × RoleInfo))
    (role_name : String := "electronic_expert") : List Message :=
  match role_config, role_config.lookup role_name with
  | _ :: _, some role_info =>
    [{ role := role_info.role_field.getD "system",
       content := some (role_info.content_field.getD DEFAULT_SYSTEM_CONTENT) }]
  | _, _ => [defaultSystemMessage]

/-- Embeds `MCPManager.clear_history` (mcp_client.py lines 59-61): delegates
to `_initialize_history` with its default role name. -/
def clear_history (role_config : List (String × RoleInfo)) : List Message :=
  initialize_history role_config

/-- Embeds `MCPManager.set_role` (mcp_client.py lines 63-65). -/
def set_role (role_config : List (String × RoleInfo)) (role_name : String) : List Message :=
  initialize_history role_config role_name

/-- Embeds `MCPManager._get_all_tools_for_llm` (mcp_client.py lines 115-131):
for every connection and every tool it exposes, emit a catalog entry whose
name is the qualified name and whose description is annotated with the owning
server id; the input schema is passed through unchanged. -/
def get_all_tools_for_llm (connections : List (String × ServerConnection)) : List ToolDef :=
  connections.flatMap fun p =>
    p.2.tools.map fun tool =>
      { name := buildName p.1 tool.name
        description := "[来自服务器: " ++ p.1 ++ "] " ++ tool.description
        parameters := tool.inputSchema }

/-- The `(backend_id, tool_name)` pairs underlying the catalog, in catalog
order; used to state determinism and uniqueness of the qualified names. -/
def catalogPairs (connections : List (String × ServerConnection)) : List (String × String) :=
  connections.flatMap fun p => p.2.tools.map fun tool => (p.1, tool.name)

/-- The fallible external collaborators used while executing one tool call:
`json.loads` (mcp_client.py line 188, error = exception text) and
`session.call_tool` for the backend owning the call (line 190, ok = rendered
result content, error = exception text). -/
structure ExecEnv where
  json_loads : String → Except String String
  call_tool : String → String → String → Except String String

/-- The error text `f-string 执行工具时出错: + e` (mcp_client.py line 199). -/
def errorContent (e : String) : String := "执行工具时出错: " ++ e

/-- The progress annotation appended to `final_text` for a routed call
(mcp_client.py line 185). -/
def routeNote (server_id original_name args_str : String) : String :=
  "[调用服务器 \x27" ++ server_id ++ "\x27 的工具 " ++ original_name ++
    "，参数: " ++ args_str ++ "]"

/-- The tool-role message appended for one executed call
(mcp_client.py lines 192-197 and 201-206). -/
def toolResultMessage (tc : ToolCall) (content : String) : Message :=
  { role := "tool", content := some content,
    tool_call_id := some tc.id, name := some tc.function_name }

/-- Embeds one iteration of the tool-call loop of `MCPManager.process_query`
(mcp_client.py lines 169-206). The accumulator carries
`(self.messages, final_text)`; `conn_ids` are the registry keys. A name that
does not split (`ValueError`) or a backend id not in the registry skips the
call via `continue`; otherwise the progress annotation is appended to
`final_text`, and the `try` block either appends the success tool message or,
on any decode or execution error, the error tool message. -/
def processToolCall (env : ExecEnv) (conn_ids : List String)
    (acc : List Message × List (Option String)) (tc : ToolCall) :
    List Message × List (Option String) :=
  match resolveName tc.function_name with
  | none => acc
  | some (server_id, original_name) =>
    if conn_ids.contains server_id then
      let ft := acc.2 ++ [some (routeNote server_id original_name tc.function_arguments)]
      match env.json_loads tc.function_arguments with
      | .error e => (acc.1 ++ [toolResultMessage tc (errorContent e)], ft)
      | .ok function_args =>
        match env.call_tool server_id original_name function_args with
        | .ok result => (acc.1 ++ [toolResultMessage tc result], ft)
        | .error e => (acc.1 ++ [toolResultMessage tc (errorContent e)], ft)
    else acc

/-- The whole tool-call loop, in provider order. -/
def processToolCalls (env : ExecEnv) (conn_ids : List String)
    (acc : List Message × List (Option String)) (tool_calls : List ToolCall) :
    List Message × List (Option String) :=
  tool_calls.foldl (processToolCall env conn_ids) acc

/-- The tool-result message one call contributes to the history: `none` for a
skipped call (parse or route failure), otherwise exactly one message. -/
def toolMsgOf (env : ExecEnv) (conn_ids : List String) (tc : ToolCall) : Option Message :=
  match resolveName tc.function_name with
  | none => none
  | some (server_id, original_name) =>
    if conn_ids.contains server_id then
      match env.json_loads tc.function_arguments with
      | .error e => some (toolResultMessage tc (errorContent e))
      | .ok function_args =>
        match env.call_tool server_id original_name function_args with
        | .ok result => some (toolResultMessage tc result)
        | .error e => some (toolResultMessage tc (errorContent e))
    else none

/-- One chat-completion request: the keyword arguments of
`self.client.chat.completions.create`. `tools`/`tool_choice` being `none`
means the keyword was not passed at all. -/
structure CompletionRequest where
  model : String
  messages : List Message
  tools : Option (List ToolDef) := none
  tool_choice : Option String := none

/-- The provider response message `completion.choices[0].message`. -/
structure ProviderMessage where
  content : Option String := none
  tool_calls : List ToolCall := []

/-- The raw response message as appended to the history. -/
def assistantMessageOf (pm : ProviderMessage) : Message :=
  { role := "assistant", content := pm.content, tool_calls := pm.tool_calls }

/-- The user message appended at the start of a query (mcp_client.py line 141). -/
def userMessage (query : String) : Message := { role := "user", content := some query }

/-- The conditional `tool_kwargs` assembly (mcp_client.py lines 145-148): when
the catalog is empty neither `tools` nor `tool_choice` is passed. -/
def toolKwargs (available_tools : List ToolDef) : Option (List ToolDef) × Option String :=
  if available_tools.isEmpty then (none, none) else (some available_tools, some "auto")

/-- The first completion request of a query (mcp_client.py lines 150-158). -/
def firstRequest (connections : List (String × ServerConnection))
    (msgs : List Message) : CompletionRequest :=
  { model := "anthropic/claude-3.5-sonnet", messages := msgs,
    tools := (toolKwargs (get_all_tools_for_llm connections)).1,
    tool_choice := (toolKwargs (get_all_tools_for_llm connections)).2 }

/-- Python `"\n".join(filter(None, final_text))`: drops `None` entries and
empty strings, then joins with newlines. -/
def joinFiltered (final_text : List (Option String)) : String :=
  String.intercalate "\n" ((final_text.filterMap id).filter fun s => !(s == ""))

/-- Embeds `MCPManager.process_query` (mcp_client.py lines 133-216). The
completion provider is an explicit function; the result is the returned text
together with the final `self.messages`. -/
def process_query (provider : CompletionRequest → ProviderMessage) (env : ExecEnv)
    (connections : List (String × ServerConnection)) (messages : List Message)
    (query : String) : String × List Message :=
  let msgs1 := messages ++ [userMessage query]
  let response_message := provider (firstRequest connections msgs1)
  let msgs2 := msgs1 ++ [assistantMessageOf response_message]
  let ft0 : List (Option String) :=
    if truthyOpt response_message.content then [response_message.content] else []
  if response_message.tool_calls.isEmpty then
    (joinFiltered ft0, msgs2)
  else
    let step := processToolCalls env (connections.map Prod.fst) (msgs2, ft0)
      response_message.tool_calls
    let final_response_message :=
      provider { model := "anthropic/claude-3.5-sonnet", messages := step.1 }
    (joinFiltered (step.2 ++ [final_response_message.content]),
     step.1 ++ [assistantMessageOf final_response_message])

/-- The manager registry `self.connections` (insertion-ordered association
list) together with a ledger of the scoped resources currently held by live
`AsyncExitStack`s of the process. -/
structure ManagerState where
  connections : List (String × ServerConnection)
  live : List Nat
deriving DecidableEq

/-- The configuration value of one backend. `args := none` models both an absent
key and a non-list value (the `isinstance(args, list)` check). -/
structure ServerConfig where
  command : Option String := none
  args : Option (List String) := none
  disabled : Bool := false
deriving DecidableEq

/-- The outcome of one connection attempt: which scoped resources the attempt
enters on its fresh `AsyncExitStack` (`stdio_client`, `ClientSession`), and
whether `initialize()`/`list_tools()` succeed, with the fetched tools. -/
structure ConnectAttempt where
  acquired : List Nat
  result : Except String (List Tool)

/-- Embeds `MCPManager.connect_to_server` (mcp_client.py lines 67-113).
A duplicate id or an invalid config returns early with no change. Otherwise
the resources of the attempt are entered on the exit stack (added to the ledger);
on success the connection is registered keeping its stack, on failure
`exit_stack.aclose()` releases exactly the entries the attempt added. -/
def connect_to_server (st : ManagerState) (server_id : String)
    (config : ServerConfig) (attempt : ConnectAttempt) : ManagerState :=
  if (st.connections.lookup server_id).isSome then st
  else if !(truthyOpt config.command) || config.args.isNone then st
  else
    let acquired_live := st.live ++ attempt.acquired
    match attempt.result with
    | .ok tools =>
      { st with
        connections := st.connections ++
          [(server_id, { tools := tools, resources := attempt.acquired })],
        live := acquired_live }
    | .error _ => { st with live := acquired_live.take st.live.length }

/-- Embeds `MCPManager.cleanup` (mcp_client.py lines 218-229). For every
connection in turn, `conn.exit_stack.aclose()` is attempted; `AsyncExitStack`
runs every registered exit callback even when one raises, so the scoped
resources of the connection leave the ledger either way; `try/except` swallows
the per-connection error (`close_raises` says which acloses raise) so the loop
continues. Finally `self.connections.clear()`. The second component models
the per-connection diagnostics printed. -/
def cleanup (st : ManagerState) (close_raises : String → Bool) :
    ManagerState × List String :=
  let step := st.connections.foldl
    (fun acc p =>
      if close_raises p.1 then
        (acc.1.removeAll p.2.resources, acc.2 ++ ["关闭连接 " ++ p.1 ++ " 时出错"])
      else
        (acc.1.removeAll p.2.resources, acc.2 ++ ["🔌 连接 " ++ p.1 ++ " 已关闭。"]))
    (st.live, ([] : List String))
  ({ connections := [], live := step.1 }, step.2)

/-- The parsed content of `servers.json`: `config_data.get("mcpServers", {})`
with `none` modelling an absent key. -/
structure ServerConfigData where
  mcpServers : Option (List (String × ServerConfig)) := none

/-- Which diagnostic `load_server_config` prints. -/
inductive LoadDiag where
  | loadedServers
  | emptyWarning
  | parseWarning
  | missingInfo
deriving DecidableEq

/-- Embeds `load_server_config` (mcp_client.py lines 327-353). The argument
is `none` when the file does not exist, otherwise the outcome of
`json.load`; a `json.JSONDecodeError` is caught and the empty configuration
returned with a warning. -/
def load_server_config (file : Option (Except String ServerConfigData)) :
    List (String × ServerConfig) × LoadDiag :=
  match file with
  | some (.ok config_data) =>
    let server_configs := config_data.mcpServers.getD []
    if server_configs.isEmpty then (server_configs, .emptyWarning)
    else (server_configs, .loadedServers)
  | some (.error _) => ([], .parseWarning)
  | none => ([], .missingInfo)

/-- Embeds `load_role_config` (mcp_client.py lines 302-324): parse failures
and a missing file both fall back to the empty table. -/
def load_role_config (file : Option (Except String (List (String × RoleInfo)))) :
    List (String × RoleInfo) :=
  match file with
  | some (.ok role_config) => role_config
  | _ => []

/-- The process exit status of `asyncio.run(main())`: 0 when `main` returns
normally, nonzero when an exception escapes it. -/
def pythonExitCode : Except String Unit → Nat
  | .ok _ => 0
  | .error _ => 1

/-- Embeds `main` (mcp_client.py lines 380-397): load both configuration
files, then run the session (connect to servers, chat loop, cleanup) —
abstracted as `session`, which returns `.ok ()` on a normal `/quit`. The
loading itself never raises. -/
def main (role_file : Option (Except String (List (String × RoleInfo))))
    (server_file : Option (Except String ServerConfigData))
    (session : List (String × RoleInfo) → List (String × ServerConfig) →
      Except String Unit) : Except String Unit :=
  session (load_role_config role_file) (load_server_config server_file).1

/-- A concrete execution environment for witnesses: decoding fails exactly on
the text `not json`, and the tool named `boom` fails to execute. -/
def envW : ExecEnv :=
  { json_loads := fun s => if s == "not json" then .error "Expecting value" else .ok s
    call_tool := fun _ tool_name args =>
      if tool_name == "boom" then .error "boom" else .ok ("ok:" ++ args) }

/-- Concrete tool call whose qualified name lacks the separator. -/
def tcParseFail : ToolCall :=
  { id := "1", function_name := "noseparator", function_arguments := "x" }

/-- Concrete tool call naming an unregistered backend. -/
def tcUnknown : ToolCall :=
  { id := "2", function_name := "ghost__t", function_arguments := "x" }

/-- Concrete tool call whose arguments fail to decode. -/
def tcDecodeFail : ToolCall :=
  { id := "3", function_name := "ngspice__run", function_arguments := "not json" }

/-- Concrete tool call that routes and executes successfully. -/
def tcOk : ToolCall :=
  { id := "4", function_name := "ngspice__run", function_arguments := "y" }

/-- Concrete role-profile table whose `electronic_expert` profile carries a
non-system role. -/
def c3RoleConfig : List (String × RoleInfo) :=
  [("electronic_expert", { role_field := some "user", content_field := some "模拟用户" })]

/-- A provider that always answers with plain text and no tool calls. -/
def plainProvider : CompletionRequest → ProviderMessage :=
  fun _ => { content := some "你好" }

/-- Two connections with distinct backend ids whose qualified tool names
collide: `buildName a x__y` and `buildName a__x y` are the same string. -/
def cexConnections : List (String × ServerConnection) :=
  [("a", { tools := [{ name := "x__y", description := "d", inputSchema := "s" }],
           resources := [] }),
   ("a__x", { tools := [{ name := "y", description := "d", inputSchema := "s" }],
              resources := [] })]

/-- A well-formed registry: distinct separator-free backend ids not ending in
underscore, with per-backend distinct tool names. -/
def okConnections : List (String × ServerConnection) :=
  [("ngspice", { tools := [{ name := "run", description := "d1", inputSchema := "s1" },
                           { name := "probe", description := "d2", inputSchema := "s2" }],
                 resources := [1] }),
   ("weather", { tools := [{ name := "run", description := "d3", inputSchema := "s3" }],
                 resources := [2] })]

/-- A concrete manager state with one registered connection. -/
def st0 : ManagerState :=
  { connections := [("ngspice", { tools := [], resources := [1, 2] })], live := [1, 2] }

/-- A well-formed backend configuration. -/
def cfgOk : ServerConfig :=
  { command := some "uv", args := some ["run", "server.py"] }

/-- A connection attempt that acquires two resources and then fails its
handshake. -/
def attemptFail : ConnectAttempt :=
  { acquired := [7, 8], result := .error "handshake failed" }

/-- A connection attempt that succeeds with an empty tool catalog. -/
def attemptOk : ConnectAttempt :=
  { acquired := [9], result := .ok [] }

theorem sep_data : TOOL_NAME_SEPARATOR.data = sepChars := rfl

theorem splitOnceData_cons_none {sep : List Char} {c : Char} {l : List Char}
    (h : splitOnceData sep (c :: l) = none) : splitOnceData sep l = none := by
  rw [splitOnceData] at h
  by_cases hp : sep.isPrefixOf (c :: l)
  · simp [hp] at h
  · simp only [hp, if_false] at h
    cases hsl : splitOnceData sep l with
    | none => rfl
    | some p => rw [hsl] at h; simp at h

theorem sep_isPrefixOf (l : List Char) :
    sepChars.isPrefixOf l =
      match l with
      | x :: y :: _ => '_' == x && '_' == y
      | _ => false := by
  match l with
  | [] => rfl
  | [x] => simp [sepChars, List.isPrefixOf]
  | x :: y :: rest => simp [sepChars, List.isPrefixOf]

/-- Key splitting lemma: when `b` does not contain the separator and does not
end in an underscore, the first occurrence of the separator in
`b ++ sepChars ++ t` is exactly the inserted one, so the split recovers
`(b, t)` for every `t`. -/
theorem splitOnceData_build (b t : List Char)
    (hb : splitOnceData sepChars b = none)
    (hlast : b.getLast? ≠ some '_') :
    splitOnceData sepChars (b ++ sepChars ++ t) = some (b, t) := by
  induction b with
  | nil =>
    have hred : ([] : List Char) ++ sepChars ++ t = '_' :: '_' :: t := rfl
    rw [hred, splitOnceData, sep_isPrefixOf]
    simp [sepChars]
  | cons c b2 ih =>
    have hb2 : splitOnceData sepChars b2 = none := splitOnceData_cons_none hb
    have hstep : ((c :: b2) ++ sepChars ++ t) = c :: (b2 ++ sepChars ++ t) := by simp
    rw [hstep, splitOnceData]
    have hnp : sepChars.isPrefixOf (c :: (b2 ++ sepChars ++ t)) = false := by
      rw [sep_isPrefixOf]
      cases hcb : b2 with
      | nil =>
        subst hcb
        have hc : c ≠ '_' := by
          intro hc
          subst hc
          exact hlast rfl
        have hred : c :: (([] : List Char) ++ sepChars ++ t) = c :: '_' :: '_' :: t := rfl
        rw [hred]
        simp [Ne.symm hc]
      | cons d b3 =>
        subst hcb
        have hred : c :: ((d :: b3) ++ sepChars ++ t) = c :: d :: (b3 ++ sepChars ++ t) := by
          simp
        rw [hred]
        by_cases hc : c = '_'
        · subst hc
          by_cases hd : d = '_'
          · subst hd
            exfalso
            rw [splitOnceData] at hb
            have hpre : sepChars.isPrefixOf ('_' :: '_' :: b3) = true := by
              rw [sep_isPrefixOf]; simp
            rw [hpre] at hb
            simp at hb
          · simp [Ne.symm hd]
        · simp [Ne.symm hc]
    rw [hnp]
    simp only [if_false, Bool.false_eq_true]
    have hlast2 : b2.getLast? ≠ some '_' := by
      cases hcb : b2 with
      | nil => simp
      | cons d b3 =>
        subst hcb
        rw [List.getLast?_cons_cons] at hlast
        exact hlast
    rw [ih hb2 hlast2]

theorem string_mk_data (s : String) : String.mk s.data = s := rfl

theorem intercalate_singleton (c : String) : String.intercalate "\n" [c] = c := rfl

/-- Round-trip law for the namespace router, with the exact side conditions the
code needs: the backend id must not contain the separator and must not end in
an underscore. Shared by the claims about the router and the catalog. -/
theorem resolve_build (b t : String)
    (hb : containsSep b = false)
    (hu : endsWithUnderscore b = false) :
    resolveName (buildName b t) = some (b, t) := by
  have hbn : splitOnceData sepChars b.data = none := by
    unfold containsSep at hb
    cases h : splitOnceData sepChars b.data with
    | none => rfl
    | some p => rw [h] at hb; simp at hb
  have hun : b.data.getLast? ≠ some '_' := by
    unfold endsWithUnderscore at hu
    intro h
    rw [h] at hu
    simp at hu
  have hdata : (buildName b t).data = b.data ++ sepChars ++ t.data := by
    unfold buildName
    rw [String.data_append, String.data_append, sep_data]
  unfold resolveName pySplitOnce
  rw [sep_data, hdata, splitOnceData_build b.data t.data hbn hun]

theorem processToolCall_fst (env : ExecEnv) (conn_ids : List String)
    (acc : List Message × List (Option String)) (tc : ToolCall) :
    (processToolCall env conn_ids acc tc).1
      = acc.1 ++ (toolMsgOf env conn_ids tc).toList := by
  unfold processToolCall toolMsgOf
  cases hr : resolveName tc.function_name with
  | none => simp
  | some p =>
    obtain ⟨sid, oname⟩ := p
    by_cases hc : sid ∈ conn_ids
    · cases hj : env.json_loads tc.function_arguments with
      | error e => simp [hc, hj]
      | ok a =>
        cases hct : env.call_tool sid oname a with
        | ok r => simp [hc, hj, hct]
        | error e => simp [hc, hj, hct]
    · simp [hc]

theorem processToolCalls_fst (env : ExecEnv) (conn_ids : List String) :
    ∀ (tool_calls : List ToolCall) (msgs : List Message) (ft : List (Option String)),
    (processToolCalls env conn_ids (msgs, ft) tool_calls).1
      = msgs ++ tool_calls.filterMap (toolMsgOf env conn_ids) := by
  intro tcs
  induction tcs with
  | nil => intro msgs ft; simp [processToolCalls]
  | cons tc rest ih =>
    intro msgs ft
    have h0 : processToolCalls env conn_ids (msgs, ft) (tc :: rest)
        = processToolCalls env conn_ids (processToolCall env conn_ids (msgs, ft) tc) rest := rfl
    have h2 : (processToolCalls env conn_ids
          (processToolCall env conn_ids (msgs, ft) tc) rest).1
        = (processToolCall env conn_ids (msgs, ft) tc).1
            ++ rest.filterMap (toolMsgOf env conn_ids) :=
      ih (processToolCall env conn_ids (msgs, ft) tc).1
        (processToolCall env conn_ids (msgs, ft) tc).2
    rw [h0, h2, processToolCall_fst, List.filterMap_cons]
    cases toolMsgOf env conn_ids tc <;> simp

theorem initialize_history_length (role_config : List (String × RoleInfo))
    (role_name : String) : (initialize_history role_config role_name).length = 1 := by
  unfold initialize_history
  rcases role_config with _ | ⟨hd, tl⟩
  · rfl
  · cases hl : (hd :: tl).lookup role_name <;> simp [hl]

theorem initialize_history_of_none (role_config : List (String × RoleInfo))
    (role_name : String) (h : role_config.lookup role_name = none) :
    initialize_history role_config role_name = [defaultSystemMessage] := by
  unfold initialize_history
  rcases role_config with _ | ⟨hd, tl⟩
  · rfl
  · rw [h]

theorem initialize_history_of_lookup (role_config : List (String × RoleInfo))
    (role_name : String) (role_info : RoleInfo)
    (h : role_config.lookup role_name = some role_info) :
    initialize_history role_config role_name =
      [{ role := role_info.role_field.getD "system",
         content := some (role_info.content_field.getD DEFAULT_SYSTEM_CONTENT) }] := by
  unfold initialize_history
  rcases role_config with _ | ⟨hd, tl⟩
  · simp [List.lookup] at h
  · rw [h]

theorem removeAll_append (l xs ys : List Nat) :
    l.removeAll (xs ++ ys) = (l.removeAll xs).removeAll ys := by
  simp only [List.removeAll, List.filter_filter]
  apply List.filter_congr
  intro a _
  simp [List.mem_append, Bool.not_or, Bool.and_comm]

theorem cleanup_foldl (f : String → Bool) :
    ∀ (conns : List (String × ServerConnection)) (lv : List Nat) (logs : List String),
    conns.foldl
      (fun acc p =>
        if f p.1 then
          (acc.1.removeAll p.2.resources, acc.2 ++ ["关闭连接 " ++ p.1 ++ " 时出错"])
        else
          (acc.1.removeAll p.2.resources, acc.2 ++ ["🔌 连接 " ++ p.1 ++ " 已关闭。"]))
      (lv, logs)
      = (lv.removeAll (conns.flatMap fun p => p.2.resources),
         logs ++ conns.map fun p =>
           if f p.1 then "关闭连接 " ++ p.1 ++ " 时出错"
           else "🔌 连接 " ++ p.1 ++ " 已关闭。") := by
  intro conns
  induction conns with
  | nil => intro lv logs; simp [List.removeAll]
  | cons p rest ih =>
    intro lv logs
    by_cases hf : f p.1 = true
    · simp only [List.foldl_cons, List.flatMap_cons, List.map_cons, hf, if_true]
      rw [ih, removeAll_append]
      simp
    · have hf2 : f p.1 = false := by simpa using hf
      simp only [List.foldl_cons, List.flatMap_cons, List.map_cons, hf2,
        Bool.false_eq_true, if_false]
      rw [ih, removeAll_append]
      simp

theorem cleanup_spec (st : ManagerState) (f : String → Bool) :
    cleanup st f
      = ({ connections := [],
           live := st.live.removeAll (st.connections.flatMap fun p => p.2.resources) },
         st.connections.map fun p =>
           if f p.1 then "关闭连接 " ++ p.1 ++ " 时出错"
           else "🔌 连接 " ++ p.1 ++ " 已关闭。") := by
  simp only [cleanup]
  rw [cleanup_foldl f st.connections st.live []]
  simp

theorem mem_catalogPairs {connections : List (String × ServerConnection)}
    {q : String × String} (h : q ∈ catalogPairs connections) :
    q.1 ∈ connections.map Prod.fst := by
  unfold catalogPairs at h
  rw [List.mem_flatMap] at h
  obtain ⟨p, hp, hq⟩ := h
  rw [List.mem_map] at hq
  obtain ⟨tool, htool, hqe⟩ := hq
  rw [← hqe]
  exact List.mem_map.mpr ⟨p, hp, rfl⟩

theorem catalog_names_eq (connections : List (String × ServerConnection)) :
    (get_all_tools_for_llm connections).map ToolDef.name
      = (catalogPairs connections).map fun q => buildName q.1 q.2 := by
  unfold get_all_tools_for_llm catalogPairs
  rw [List.map_flatMap, List.map_flatMap]
  congr 1
  funext p
  rw [List.map_map, List.map_map]
  rfl

theorem catalog_length (connections : List (String × ServerConnection)) :
    (get_all_tools_for_llm connections).length
      = (connections.map fun p => p.2.tools.length).sum := by
  unfold get_all_tools_for_llm
  induction connections with
  | nil => rfl
  | cons p rest ih => simp [ih]

theorem catalogPairs_nodup (connections : List (String × ServerConnection))
    (hids : (connections.map Prod.fst).Nodup)
    (htools : ∀ p ∈ connections, (p.2.tools.map Tool.name).Nodup) :
    (catalogPairs connections).Nodup := by
  induction connections with
  | nil => simp [catalogPairs]
  | cons p rest ih =>
    unfold catalogPairs
    rw [List.flatMap_cons, List.nodup_append]
    rw [List.map_cons, List.nodup_cons] at hids
    refine ⟨?_, ?_, ?_⟩
    · have h1 : (p.2.tools.map Tool.name).Nodup := htools p (List.mem_cons_self p rest)
      have h2 : p.2.tools.map (fun tool => (p.1, tool.name))
          = (p.2.tools.map Tool.name).map (fun n => (p.1, n)) := by
        rw [List.map_map]; rfl
      rw [h2]
      exact List.Nodup.map (fun a b hab => congrArg Prod.snd hab) h1
    · exact ih hids.2 (fun p2 hp2 => htools p2 (List.mem_cons_of_mem p hp2))
    · rw [List.disjoint_left]
      intro q hq hq2
      rw [List.mem_map] at hq
      obtain ⟨tool, htool, hqe⟩ := hq
      have h3 : q.1 ∈ rest.map Prod.fst := mem_catalogPairs hq2
      rw [← hqe] at h3
      exact hids.1 h3

theorem catalog_names_nodup (connections : List (String × ServerConnection))
    (hids : (connections.map Prod.fst).Nodup)
    (hvalid : ∀ p ∈ connections, containsSep p.1 = false ∧ endsWithUnderscore p.1 = false
        ∧ (p.2.tools.map Tool.name).Nodup) :
    ((get_all_tools_for_llm connections).map ToolDef.name).Nodup := by
  rw [catalog_names_eq]
  refine List.Nodup.map_on ?_
    (catalogPairs_nodup connections hids (fun p hp => (hvalid p hp).2.2))
  intro q hq q2 hq2 heq
  obtain ⟨a, b⟩ := q
  obtain ⟨c, d⟩ := q2
  obtain ⟨p1, hp1, he1⟩ := List.mem_map.mp (mem_catalogPairs hq)
  obtain ⟨p2, hp2, he2⟩ := List.mem_map.mp (mem_catalogPairs hq2)
  have hv1 := hvalid p1 hp1
  have hv2 := hvalid p2 hp2
  have he1a : p1.1 = a := he1
  have he2c : p2.1 = c := he2
  have hb1 : containsSep a = false := he1a ▸ hv1.1
  have hu1 : endsWithUnderscore a = false := he1a ▸ hv1.2.1
  have hb2 : containsSep c = false := he2c ▸ hv2.1
  have hu2 : endsWithUnderscore c = false := he2c ▸ hv2.2.1
  have r1 := resolve_build a b hb1 hu1
  have r2 := resolve_build c d hb2 hu2
  simp only at heq
  rw [heq, r2] at r1
  injection r1 with r1e
  exact r1e.symm

/-- C1. The claim states the round trip for every backend id merely free of
the separator substring; it fails: the backend id `a_` contains no `__`, yet
the qualified name `a_` + `__` + `x` is `a___x`, whose first `__` occurrence
starts inside the id, so resolution returns `(a, _x)`, not `(a_, x)`. -/
theorem claim_C1_counterexample :
    containsSep "a_" = false
    ∧ resolveName (buildName "a_" "x") = some ("a", "_x")
    ∧ (some (("a" : String), ("_x" : String)) ≠ some (("a_" : String), ("x" : String))) :=
  ⟨by decide, by decide, by decide⟩

/-- C1 (amended). The round trip `resolveName (buildName b t) = (b, t)` holds
for every tool name as soon as the backend id neither contains the separator
substring nor ends with an underscore character. -/
theorem claim_C1_amended (backend_id tool_name : String)
    (hb : containsSep backend_id = false)
    (hu : endsWithUnderscore backend_id = false) :
    resolveName (buildName backend_id tool_name) = some (backend_id, tool_name) :=
  resolve_build backend_id tool_name hb hu

/-- C1 witness: a concrete instance of the amended round trip, with a tool
name that itself contains the separator. -/
theorem claim_C1_witness :
    containsSep "ngspice" = false
    ∧ endsWithUnderscore "ngspice" = false
    ∧ resolveName (buildName "ngspice" "run__sim") = some ("ngspice", "run__sim") :=
  ⟨by decide, by decide, claim_C1_amended "ngspice" "run__sim" (by decide) (by decide)⟩

/-- C2. The tool-call batch: the final history equals the initial history
plus, per call in order, the optional message `toolMsgOf` — so a call whose
name does not split or whose backend id is unregistered contributes nothing
and does not abort the rest, while a decode or execution failure contributes
exactly one tool-role message carrying the error description; the loop is a
total function, so no single tool failure raises out of query processing. -/
theorem claim_C2 (env : ExecEnv) (conn_ids : List String) (msgs : List Message)
    (ft : List (Option String)) (tool_calls : List ToolCall) :
    (processToolCalls env conn_ids (msgs, ft) tool_calls).1
        = msgs ++ tool_calls.filterMap (toolMsgOf env conn_ids)
    ∧ (∀ tc, resolveName tc.function_name = none → toolMsgOf env conn_ids tc = none)
    ∧ (∀ tc sid oname, resolveName tc.function_name = some (sid, oname) →
        sid ∉ conn_ids → toolMsgOf env conn_ids tc = none)
    ∧ (∀ tc sid oname e, resolveName tc.function_name = some (sid, oname) →
        sid ∈ conn_ids →
        env.json_loads tc.function_arguments = .error e →
        toolMsgOf env conn_ids tc = some (toolResultMessage tc (errorContent e)))
    ∧ (∀ tc sid oname a e, resolveName tc.function_name = some (sid, oname) →
        sid ∈ conn_ids →
        env.json_loads tc.function_arguments = .ok a →
        env.call_tool sid oname a = .error e →
        toolMsgOf env conn_ids tc = some (toolResultMessage tc (errorContent e))) := by
  refine ⟨processToolCalls_fst env conn_ids tool_calls msgs ft, ?_, ?_, ?_, ?_⟩
  · intro tc h; simp [toolMsgOf, h]
  · intro tc sid oname h hc; simp [toolMsgOf, h, hc]
  · intro tc sid oname e h hc hj; simp [toolMsgOf, h, hc, hj]
  · intro tc sid oname a e h hc hj hct; simp [toolMsgOf, h, hc, hj, hct]

/-- C2 witness: a batch with a malformed name, an unknown backend, a decode
failure and a successful call appends exactly the two tool messages. -/
theorem claim_C2_witness :
    (processToolCalls envW ["ngspice"] ([], []) [tcParseFail, tcUnknown, tcDecodeFail, tcOk]).1
        = [toolResultMessage tcDecodeFail (errorContent "Expecting value"),
           toolResultMessage tcOk "ok:y"]
    ∧ toolMsgOf envW ["ngspice"] tcParseFail = none
    ∧ toolMsgOf envW ["ngspice"] tcUnknown = none
    ∧ toolMsgOf envW ["ngspice"] tcDecodeFail
        = some (toolResultMessage tcDecodeFail (errorContent "Expecting value")) := by
  have h := claim_C2 envW ["ngspice"] [] [] [tcParseFail, tcUnknown, tcDecodeFail, tcOk]
  refine ⟨?_, ?_, ?_, ?_⟩
  · rw [h.1]; decide
  · exact h.2.1 tcParseFail (by decide)
  · exact h.2.2.1 tcUnknown "ghost" "t" (by decide) (by decide)
  · exact h.2.2.2.1 tcDecodeFail "ngspice" "run" "Expecting value" (by decide) (by decide) rfl

/-- C3. The claim asserts the sole post-reset message always has role
`system`; it fails: the code takes the role from the `role` key of the profile
(`role_info.get("role", "system")`), so a profile carrying `role: user`
seeds the history with a `user` message. -/
theorem claim_C3_counterexample :
    (clear_history c3RoleConfig).map Message.role = ["user"]
    ∧ (set_role c3RoleConfig "electronic_expert").map Message.role = ["user"]
    ∧ ("user" : String) ≠ "system" :=
  ⟨by decide, by decide, by decide⟩

/-- C3 (amended). After a reset the history always has length 1; when the
role name is absent from the profile table the sole message is the fixed
default (role `system`, default content); when it is present the sole
message takes the role field of the profile, defaulting to `system`, and the
content field of the profile, defaulting to the fixed content. -/
theorem claim_C3_amended (role_config : List (String × RoleInfo)) (role_name : String) :
    (initialize_history role_config role_name).length = 1
    ∧ (role_config.lookup role_name = none →
        initialize_history role_config role_name = [defaultSystemMessage])
    ∧ (∀ role_info, role_config.lookup role_name = some role_info →
        initialize_history role_config role_name =
          [{ role := role_info.role_field.getD "system",
             content := some (role_info.content_field.getD DEFAULT_SYSTEM_CONTENT) }])
    ∧ defaultSystemMessage.role = "system"
    ∧ defaultSystemMessage.content = some DEFAULT_SYSTEM_CONTENT :=
  ⟨initialize_history_length role_config role_name,
   initialize_history_of_none role_config role_name,
   fun role_info h => initialize_history_of_lookup role_config role_name role_info h,
   rfl, rfl⟩

/-- C3 witness: the reset behaviour at a concrete table with a non-system
profile and at the empty table with an unknown role name. -/
theorem claim_C3_witness :
    initialize_history c3RoleConfig "electronic_expert"
        = [{ role := "user", content := some "模拟用户" }]
    ∧ initialize_history [] "unknown_role" = [defaultSystemMessage] := by
  constructor
  · have h := (claim_C3_amended c3RoleConfig "electronic_expert").2.2.1
      { role_field := some "user", content_field := some "模拟用户" } (by decide)
    exact h.trans (by decide)
  · exact (claim_C3_amended [] "unknown_role").2.1 (by decide)

/-- C10. `clear_history` and `set_role electronic_expert` produce the same
history: both delegate to `_initialize_history` with the role name
`electronic_expert`, so when that key is present the `/clear` command
re-seeds the conversation from the profile, not from the fixed default. -/
theorem claim_C10 (role_config : List (String × RoleInfo)) :
    clear_history role_config = set_role role_config "electronic_expert"
    ∧ clear_history role_config = initialize_history role_config "electronic_expert"
    ∧ (∀ role_info, role_config.lookup "electronic_expert" = some role_info →
        clear_history role_config =
          [{ role := role_info.role_field.getD "system",
             content := some (role_info.content_field.getD DEFAULT_SYSTEM_CONTENT) }]) :=
  ⟨rfl, rfl,
   fun role_info h =>
     initialize_history_of_lookup role_config "electronic_expert" role_info h⟩

/-- C10 witness: at a table whose `electronic_expert` profile is non-default,
`/clear` re-seeds from the profile. -/
theorem claim_C10_witness :
    clear_history c3RoleConfig = [{ role := "user", content := some "模拟用户" }] := by
  have h := (claim_C10 c3RoleConfig).2.2
    { role_field := some "user", content_field := some "模拟用户" } (by decide)
  exact h.trans (by decide)

/-- C4. The claim asserts the final history length is 2; it fails: the
history always begins with the system message seeded at construction, so a
plain-text no-tool query ends at length 3 (system, user, assistant) while
returning exactly the provider text. -/
theorem claim_C4_counterexample :
    (process_query plainProvider envW [] (initialize_history []) "hi").1 = "你好"
    ∧ (process_query plainProvider envW [] (initialize_history []) "hi").2.length = 3
    ∧ (3 : Nat) ≠ 2 :=
  ⟨by decide, by decide, by decide⟩

/-- C4 (amended). With zero connections the completion request carries
neither `tools` nor `tool_choice`; when the provider answers with plain text
and no tool calls, the query returns exactly that text and appends exactly
two messages — the user message and the assistant message — to the
conversation history. -/
theorem claim_C4_amended (provider : CompletionRequest → ProviderMessage) (env : ExecEnv)
    (messages : List Message) (query c : String)
    (hp : provider (firstRequest [] (messages ++ [userMessage query]))
        = { content := some c, tool_calls := [] }) :
    (firstRequest [] (messages ++ [userMessage query])).tools = none
    ∧ (firstRequest [] (messages ++ [userMessage query])).tool_choice = none
    ∧ process_query provider env [] messages query
        = (c, messages ++ [userMessage query,
            { role := "assistant", content := some c }]) := by
  refine ⟨rfl, rfl, ?_⟩
  simp only [process_query]
  rw [hp]
  by_cases hc : c = ""
  · subst hc
    simp [assistantMessageOf, truthyOpt, joinFiltered]
    rfl
  · simp [assistantMessageOf, truthyOpt, joinFiltered, hc, intercalate_singleton]

/-- C4 witness: the concrete plain-text provider at the initial history. -/
theorem claim_C4_witness :
    process_query plainProvider envW [] (initialize_history []) "hi"
      = ("你好", initialize_history [] ++ [userMessage "hi",
          { role := "assistant", content := some "你好" }]) :=
  (claim_C4_amended plainProvider envW (initialize_history []) "hi" "你好" rfl).2.2

/-- C5. A connection attempt whose handshake or catalog fetch fails leaves
the manager state exactly as it was: the exit stack of the attempt is closed, so
the resource ledger is restored, and no entry for the backend id becomes
visible to registry lookups. -/
theorem claim_C5 (st : ManagerState) (server_id : String) (config : ServerConfig)
    (attempt : ConnectAttempt) (e : String) (he : attempt.result = .error e) :
    connect_to_server st server_id config attempt = st
    ∧ (connect_to_server st server_id config attempt).live = st.live
    ∧ (connect_to_server st server_id config attempt).connections.lookup server_id
        = st.connections.lookup server_id := by
  have h : connect_to_server st server_id config attempt = st := by
    unfold connect_to_server
    by_cases h1 : (st.connections.lookup server_id).isSome = true
    · simp [h1]
    · by_cases h2 : (!(truthyOpt config.command) || config.args.isNone) = true
      · simp [h1, h2]
      · rw [if_neg h1, if_neg h2, he]
        show { st with live := (st.live ++ attempt.acquired).take st.live.length } = st
        rw [List.take_left]
  exact ⟨h, by rw [h], by rw [h]⟩

/-- C5 witness: a failing attempt against a fresh backend id changes nothing
and registers nothing. -/
theorem claim_C5_witness :
    connect_to_server st0 "weather" cfgOk attemptFail = st0
    ∧ (connect_to_server st0 "weather" cfgOk attemptFail).connections.lookup "weather"
        = none := by
  have h := claim_C5 st0 "weather" cfgOk attemptFail "handshake failed" rfl
  exact ⟨h.1, by rw [h.1]; decide⟩

/-- C6. Shutdown: the registry is emptied; the ledger loses exactly the
resources of the registered connections, independently of which acloses
raise (so a failure closing one backend never prevents closing the others,
and every connection is visited — one diagnostic per connection); and a
second cleanup is a no-op that leaves the registry empty and raises
nothing. -/
theorem claim_C6 (st : ManagerState) (close_raises close_raises2 : String → Bool) :
    (cleanup st close_raises).1.connections = []
    ∧ (cleanup st close_raises).1.live
        = st.live.removeAll (st.connections.flatMap fun p => p.2.resources)
    ∧ (cleanup st close_raises).2.length = st.connections.length
    ∧ cleanup (cleanup st close_raises).1 close_raises2
        = ((cleanup st close_raises).1, []) := by
  have h := cleanup_spec st close_raises
  refine ⟨by rw [h], by rw [h], by rw [h]; simp, ?_⟩
  rw [h, cleanup_spec]
  simp [List.removeAll]

/-- C7. The claim derives pairwise-distinct qualified names from distinct
backend ids alone; it fails: the separator can leak across the boundary, so
backend `a` with tool `x__y` and backend `a__x` with tool `y` (distinct ids)
both produce the qualified name `a__x__y`. -/
theorem claim_C7_counterexample :
    (cexConnections.map Prod.fst).Nodup
    ∧ (get_all_tools_for_llm cexConnections).length
        = (cexConnections.map fun p => p.2.tools.length).sum
    ∧ ¬ ((get_all_tools_for_llm cexConnections).map ToolDef.name).Nodup :=
  ⟨by decide, by decide, by decide⟩

/-- C7 (amended). The catalog always has `Σ Mi` entries and its qualified
names are deterministically `buildName backend_id tool_name`; they are
pairwise distinct provided the backend ids are pairwise distinct, contain no
separator, do not end in an underscore, and the tool names within each connection are
pairwise distinct. -/
theorem claim_C7_amended (connections : List (String × ServerConnection)) :
    (get_all_tools_for_llm connections).length
        = (connections.map fun p => p.2.tools.length).sum
    ∧ (get_all_tools_for_llm connections).map ToolDef.name
        = (catalogPairs connections).map (fun q => buildName q.1 q.2)
    ∧ ((connections.map Prod.fst).Nodup →
        (∀ p ∈ connections, containsSep p.1 = false ∧ endsWithUnderscore p.1 = false
            ∧ (p.2.tools.map Tool.name).Nodup) →
        ((get_all_tools_for_llm connections).map ToolDef.name).Nodup) :=
  ⟨catalog_length connections, catalog_names_eq connections,
   fun hids hvalid => catalog_names_nodup connections hids hvalid⟩

/-- C7 witness: a well-formed two-backend registry (three tools overall, one
name shared between backends) gets a three-entry catalog with pairwise
distinct qualified names. -/
theorem claim_C7_witness :
    ((okConnections.map Prod.fst).Nodup)
    ∧ ((get_all_tools_for_llm okConnections).map ToolDef.name).Nodup
    ∧ (get_all_tools_for_llm okConnections).length
        = (okConnections.map fun p => p.2.tools.length).sum := by
  have h := claim_C7_amended okConnections
  exact ⟨by decide, h.2.2 (by decide) (by decide), h.1⟩

/-- C8. Connecting under an already-registered backend id returns
immediately: the whole manager state — the existing connection and every
other registry entry — is preserved unchanged, with no error escalation. -/
theorem claim_C8 (st : ManagerState) (server_id : String) (config : ServerConfig)
    (attempt : ConnectAttempt)
    (h : (st.connections.lookup server_id).isSome = true) :
    connect_to_server st server_id config attempt = st := by
  unfold connect_to_server
  simp [h]

/-- C8 witness: reconnecting the registered `ngspice` backend is a no-op. -/
theorem claim_C8_witness :
    connect_to_server st0 "ngspice" cfgOk attemptOk = st0
    ∧ (st0.connections.lookup "ngspice").isSome = true :=
  ⟨claim_C8 st0 "ngspice" cfgOk attemptOk (by decide), by decide⟩

/-- C9. The claim says a malformed configuration file makes the process exit
non-zero; it fails: `load_server_config` catches the decode error, warns, and
returns the empty configuration, so a session that ends with a normal quit
exits with code 0 even when the file was malformed. -/
theorem claim_C9_counterexample :
    load_server_config (some (.error "Expecting value")) = ([], LoadDiag.parseWarning)
    ∧ pythonExitCode (main none (some (.error "Expecting value"))
        (fun _ _ => .ok ())) = 0 :=
  ⟨rfl, rfl⟩

/-- C9 (amended). A malformed configuration file is caught: a warning is
printed and the empty configuration is used; a file that loads but is empty
likewise only warns; in either case the process continues, and a session
ending in a normal quit exits with code 0. -/
theorem claim_C9_amended (e : String)
    (role_file : Option (Except String (List (String × RoleInfo))))
    (server_file : Option (Except String ServerConfigData))
    (session : List (String × RoleInfo) → List (String × ServerConfig) →
      Except String Unit)
    (hquit : ∀ rc scs, session rc scs = .ok ()) :
    load_server_config (some (.error e)) = ([], LoadDiag.parseWarning)
    ∧ load_server_config (some (.ok { mcpServers := some [] }))
        = ([], LoadDiag.emptyWarning)
    ∧ load_server_config (some (.ok { mcpServers := none }))
        = ([], LoadDiag.emptyWarning)
    ∧ pythonExitCode (main role_file server_file session) = 0 := by
  refine ⟨rfl, rfl, rfl, ?_⟩
  unfold main
  rw [hquit]
  rfl

/-- C9 witness: a normally-quitting session over a well-formed configuration
exits 0, via the amended theorem. -/
theorem claim_C9_witness :
    pythonExitCode (main none (some (.ok { mcpServers := some [("ngspice", cfgOk)] }))
        (fun _ _ => .ok ())) = 0 :=
  (claim_C9_amended "x" none (some (.ok { mcpServers := some [("ngspice", cfgOk)] }))
      (fun _ _ => .ok ()) (fun _ _ => rfl)).2.2.2

end Pantheon
